import Mathlib

/-!
Shallow embedding of the handler registry and routing-key resolution core of
`weixin/main.py` (class `Weechat`), together with theorems checking the
specification's claims against it.

Modelling conventions:
* Message fields are read by dynamic attribute access in the source; a missing
  attribute reads as Python `None`, modelled by `Option String`.
* The XML parsing/rendering, crypto, storage and the stdlib regex engine are
  external collaborators: the model takes an already-parsed `Message`, returns
  the primary result that `reply` hands to the renderer, and treats
  `re.compile`'s matching semantics as an opaque function attached to the
  compiled pattern object.
* Handlers are opaque integrator-supplied functions; their behaviour is an
  environment parameter, and handler invocation is instrumented with an event
  trace so ordering claims can be stated.
-/

deriving instance DecidableEq for Except

namespace WeixinSDK

/-- Python exceptions the dispatch core can raise: `AttributeError` from
calling a method on `None`, and a plain `Exception` with a message. -/
inductive PyExn where
  | attributeError : PyExn
  | exception : String → PyExn
  deriving DecidableEq, Repr

/-- The inbound message record produced by the excluded parsing layer.
`none` models an attribute that reads as Python `None` (e.g. after a failed
decryption). `Content` is the text content the parsing layer supplies for
text messages. -/
structure Message where
  MsgType : Option String
  Event : Option String
  EventKey : Option String
  Content : String
  deriving DecidableEq, Repr

/-- A handler function object. `user i` is an integrator-supplied function
identified by `i`; `defaultH` is the single `default = lambda req: None`
closure created in `__init__`; `textChainDispatch b` is the
`handle_text_message` closure created by the `b`-th filter registration
(each registration creates a distinct closure object; all behave alike). -/
inductive Handler where
  | user : Nat → Handler
  | defaultH : Handler
  | textChainDispatch : Nat → Handler
  deriving DecidableEq, Repr

/-- A Python value stored in the `handlers` dict: a callable, or a
non-callable object tagged by an id — `callable(h)` distinguishes them in
`get_base_handler`. -/
inductive RegVal where
  | fn : Handler → RegVal
  | obj : Nat → RegVal
  deriving DecidableEq, Repr

/-- A compiled regex object as produced by `re.compile`: the source string
together with the matcher the external stdlib regex engine assigns to it
(truthiness of `cpre.match(content)`). -/
structure RePattern where
  pattern : String
  pmatch : String → Bool

/-- The runtime type of the argument of `text_filter` /
`_compile_text_filter`: a list of keyword strings, a raw pattern string, an
already-compiled pattern, or a value of any other type. -/
inductive FilterInput where
  | list : List String → FilterInput
  | str : String → FilterInput
  | compiled : RePattern → FilterInput
  | other : FilterInput

/-- `d.get(k, None)` on a Python dict, modelled as an association list. -/
def dict_get {α : Type} : List (String × α) → String → Option α
  | [], _ => none
  | (k', v) :: rest, k => if k' = k then some v else dict_get rest k

/-- `d[k] = v` on a Python dict: replace an existing binding in place, or
append a new one. -/
def dict_set {α : Type} : List (String × α) → String → α → List (String × α)
  | [], k, v => [(k, v)]
  | (k', v') :: rest, k, v =>
    if k' = k then (k, v) :: rest else (k', v') :: dict_set rest k v

/-- The mutable state of a `Weechat` instance that the dispatch core reads:
the `handlers` dict, the global default handler, the filter chain and the
chain's own default handler. -/
structure WState where
  handlers : List (String × RegVal)
  default : Handler
  text_filter_handlers : List (RePattern × Handler)
  text_filter_default : Handler

/-- The state `Weechat.__init__` sets up: empty registry, empty filter chain,
and the single no-op `default` lambda installed as both the global default
and the filter-chain default. -/
def initial_state : WState :=
  { handlers := []
    default := .defaultH
    text_filter_handlers := []
    text_filter_default := .defaultH }

/-- `Weechat.uniform`: uppercase the key (`key.upper()`). Character-wise
uppercasing, written over the character list so the kernel can evaluate it;
the routing keys this core manipulates are ASCII, where `Char.toUpper`
agrees with Python `str.upper`. -/
def uniform (key : String) : String := ⟨key.data.map Char.toUpper⟩

/-- `self.uniform(x)` applied to a dynamically read attribute:
`None.upper()` raises `AttributeError`. -/
def uniform_attr : Option String → Except PyExn String
  | none => .error .attributeError
  | some s => .ok (uniform s)

/-- Python truthiness of an optional string attribute: `None` and the empty
string are falsy. -/
def truthy : Option String → Bool
  | none => false
  | some s => s != ""

/-- `Weechat.add_base_handler`: store the value under the uppercased key. -/
def add_base_handler (st : WState) (key : String) (function : RegVal) : WState :=
  { st with handlers := dict_set st.handlers (uniform key) function }

/-- `Weechat.get_base_handler`: walk the key list in order, uppercase each
key, and return the first bound value that is callable; otherwise return the
global default handler. -/
def get_base_handler (st : WState) : List String → Handler
  | [] => st.default
  | k :: rest =>
    match dict_get st.handlers (uniform k) with
    | some (.fn h) => h
    | _ => get_base_handler st rest

/-- `Weechat.on_finish`: register the finish hook under the `"_on_finish_"`
key. -/
def on_finish (st : WState) (function : Handler) : WState :=
  add_base_handler st "_on_finish_" (.fn function)

/-- The source regex `re.compile` receives for a keyword list:
`'^\s*(%s)\s*$' % '|'.join(filter_)`. -/
def keyword_regex (kws : List String) : String :=
  "^\\s*(" ++ String.intercalate "|" kws ++ ")\\s*$"

/-- Models `re.compile`: the stdlib engine (an external collaborator) turns a
source string into a compiled pattern; `engine` is the matcher it assigns to
each source. -/
def re_compile (engine : String → String → Bool) (source : String) : RePattern :=
  { pattern := source, pmatch := engine source }

/-- `Weechat._compile_text_filter`: a list compiles to the anchored keyword
alternation, a string compiles as-is, an already-compiled pattern is returned
unchanged, anything else raises. -/
def compile_text_filter (engine : String → String → Bool) :
    FilterInput → Except PyExn RePattern
  | .list kws => .ok (re_compile engine (keyword_regex kws))
  | .str s => .ok (re_compile engine s)
  | .compiled p => .ok p
  | .other => .error (.exception "filter is not list, str or re_pattern.")

/-- The `register` closure returned by `Weechat.text_filter`, applied to a
handler: append the (compiled pattern, handler) pair to the chain, then the
`@self.text` decoration executed inside `register` installs a freshly created
`handle_text_message` closure under the "text" key — on every call, not only
the first. The new closure's identity tag is the chain length at its
creation. -/
def text_filter_register (st : WState) (filt : RePattern) (function : Handler) : WState :=
  let st1 := { st with text_filter_handlers := st.text_filter_handlers ++ [(filt, function)] }
  add_base_handler st1 "text" (.fn (.textChainDispatch st1.text_filter_handlers.length))

/-- `Weechat.as_text_filter_default`: set the filter chain's own default
handler (independent of the registry's global default). -/
def as_text_filter_default (st : WState) (function : Handler) : WState :=
  { st with text_filter_default := function }

/-- The selection loop inside `handle_text_message`: the first chain entry
whose compiled pattern matches the content wins; with no match (or an empty
chain) the `for`/`else` branch selects the chain's default handler. -/
def select_filter_handler (st : WState) (content : String) : Handler :=
  match st.text_filter_handlers.find? (fun e => e.1.pmatch content) with
  | some e => e.2
  | none => st.text_filter_default

/-- Invoking a handler on a request: returns the trace of handler-invocation
events `(handler, message)` in order, and the handler's return value
(`none` models Python `None`, i.e. no reply body). `env` gives the behaviour
of integrator-supplied handlers; the `defaultH` lambda returns `None`; a
`handle_text_message` closure runs the chain-selection loop on the message
content and tail-calls the selected handler. `fuel` bounds nested
chain-dispatch re-entry (the registration API only ever puts integrator
functions in the chain, so depth 1 suffices in reachable states). -/
def run_handler {Res : Type} (env : Nat → Message → Option Res) :
    Nat → WState → Handler → Message → List (Handler × Message) × Option Res
  | _, _, .user i, msg => ([(.user i, msg)], env i msg)
  | _, _, .defaultH, msg => ([(.defaultH, msg)], none)
  | 0, _, .textChainDispatch b, msg => ([(.textChainDispatch b, msg)], none)
  | fuel + 1, st, .textChainDispatch b, msg =>
    let r := run_handler env fuel st (select_filter_handler st msg.Content) msg
    ((.textChainDispatch b, msg) :: r.1, r.2)

/-- `Weechat._get_msg_handler_key`: derive the candidate routing keys from
the message shape. The `EVENT` branch is taken only when the uppercased
message type is truthy and equal to `"EVENT"`; `CLICK`/`SCAN` events with a
truthy `EventKey` get a specific key first; every branch returns a non-empty
tuple, and a `None` attribute makes `uniform` raise `AttributeError`. -/
def get_msg_handler_key (message : Message) : Except PyExn (List String) := do
  let mtype ← uniform_attr message.MsgType
  if mtype ≠ "" ∧ mtype = uniform "EVENT" then
    let ev ← uniform_attr message.Event
    let main_h_key := "EVENT_" ++ ev
    if (ev = "CLICK" ∨ ev = "SCAN") ∧ truthy message.EventKey then
      let ev_key ← uniform_attr message.EventKey
      pure ["EVENT_" ++ ev ++ "_" ++ ev_key, main_h_key]
    else
      pure [main_h_key]
  else
    pure [mtype]

/-- `Weechat.reply`: parsing the XML body and rendering the response are
external collaborators, so the model takes the parsed message and returns the
primary handler's result (handed to `get_response_xml`; `none` = no reply
body) together with the full invocation trace. The `if not keys` guard
returns Python `None` with no invocation. -/
def reply {Res : Type} (env : Nat → Message → Option Res) (fuel : Nat)
    (st : WState) (msg : Message) :
    Except PyExn (List (Handler × Message) × Option Res) := do
  let keys ← get_msg_handler_key msg
  if keys = [] then
    pure ([], none)
  else
    let processer := get_base_handler st keys
    let fin := get_base_handler st ["_on_finish_"]
    let r1 := run_handler env fuel st processer msg
    let r2 := run_handler env fuel st fin msg
    pure (r1.1 ++ r2.1, r1.2)

/-- Python `callable(h)` applied to the result of `handlers.get(k, None)`:
true exactly when a function object is bound. -/
def callable : Option RegVal → Bool
  | some (.fn _) => true
  | _ => false

/- Helper lemmas shared by the claim theorems. -/

theorem dict_get_set_self {α : Type} (d : List (String × α)) (k : String) (v : α) :
    dict_get (dict_set d k v) k = some v := by
  induction d with
  | nil => simp [dict_set, dict_get]
  | cons hd tl ih =>
    obtain ⟨k', v'⟩ := hd
    by_cases h : k' = k
    · simp [dict_set, dict_get, h]
    · simp [dict_set, dict_get, h, ih]

theorem dict_get_set_ne {α : Type} (d : List (String × α)) (k k' : String) (v : α)
    (h : k ≠ k') : dict_get (dict_set d k v) k' = dict_get d k' := by
  induction d with
  | nil => simp [dict_set, dict_get, h]
  | cons hd tl ih =>
    obtain ⟨a, b⟩ := hd
    by_cases ha : a = k
    · subst ha
      simp [dict_set, dict_get, h]
    · simp [dict_set, dict_get, ha, ih]

theorem get_base_handler_eq_default (st : WState) (keys : List String)
    (h : ∀ k ∈ keys, callable (dict_get st.handlers (uniform k)) = false) :
    get_base_handler st keys = st.default := by
  induction keys with
  | nil => rfl
  | cons a rest ih =>
    have ha := h a (List.mem_cons_self a rest)
    have hrest : get_base_handler st rest = st.default :=
      ih fun k hk => h k (List.mem_cons_of_mem _ hk)
    cases hv : dict_get st.handlers (uniform a) with
    | none => simpa [get_base_handler, hv] using hrest
    | some v =>
      cases v with
      | fn hh => rw [hv] at ha; simp [callable] at ha
      | obj t => simpa [get_base_handler, hv] using hrest

theorem run_handler_not_chain {Res : Type} (env : Nat → Message → Option Res)
    (fuel : Nat) (st : WState) (h : Handler) (msg : Message)
    (hnc : ∀ b, h ≠ .textChainDispatch b) :
    (run_handler env fuel st h msg).1 = [(h, msg)] := by
  cases h with
  | user i => simp [run_handler]
  | defaultH => simp [run_handler]
  | textChainDispatch b => exact absurd rfl (hnc b)

/-- Claim C1 (evaluation of the code at the failing inputs). The claim says
that for a message with absent or empty message type the Key Resolver returns
an empty candidate list and dispatch returns no reply without invoking any
handler and without raising. The code does neither: with `MsgType = None`
(absent), `uniform(None)` raises `AttributeError`, so `reply` raises to the
caller; with `MsgType = ""` (empty), `_get_msg_handler_key` returns the
non-empty tuple `("",)` — a truthy value, so the `if not keys` guard never
fires — and dispatch resolves to the global default handler, invokes it, and
invokes the registered finish hook. -/
theorem C1_empty_msgtype_dispatch_bug :
    get_msg_handler_key ⟨none, none, none, ""⟩ = .error .attributeError ∧
    get_msg_handler_key ⟨some "", none, none, ""⟩ = .ok [""] ∧
    reply (fun _ _ => some 9) 2 (on_finish initial_state (.user 5))
        ⟨some "", none, none, ""⟩ =
      .ok ([(.defaultH, ⟨some "", none, none, ""⟩),
            (.user 5, ⟨some "", none, none, ""⟩)], none) := by
  refine ⟨by decide, by decide, by decide⟩

/-- Claim C2 (counterexample). The claim says only the first filter
registration writes the chain-dispatch handler under the "text" key and a
subsequent registration leaves that entry unchanged. In the code the
`@self.text` decoration executes inside `register` on every call, installing
a freshly created `handle_text_message` closure each time: after a second
registration the Registry's "TEXT" entry is a different closure object than
after the first. -/
theorem C2_second_registration_rewrites_text_entry :
    dict_get (text_filter_register
        (text_filter_register initial_state ⟨"a", fun _ => false⟩ (.user 1))
        ⟨"b", fun _ => false⟩ (.user 2)).handlers "TEXT" ≠
      dict_get (text_filter_register initial_state
        ⟨"a", fun _ => false⟩ (.user 1)).handlers "TEXT" := by
  decide

/-- Claim C2 (amended): every filter registration — not only the first —
appends its (pattern, handler) pair to the chain and re-installs a freshly
created chain-dispatch closure in the Registry under the "text" key,
overwriting the previous entry; no other Registry key is affected, and all
chain-dispatch closures have identical dispatch behaviour, so the "text" key
always holds the chain-dispatch routine. -/
theorem C2_every_registration_installs_chain_dispatch
    (st : WState) (filt : RePattern) (h : Handler) :
    (text_filter_register st filt h).text_filter_handlers =
        st.text_filter_handlers ++ [(filt, h)] ∧
    dict_get (text_filter_register st filt h).handlers "TEXT" =
        some (.fn (.textChainDispatch (st.text_filter_handlers.length + 1))) ∧
    (∀ k, k ≠ "TEXT" →
        dict_get (text_filter_register st filt h).handlers k =
          dict_get st.handlers k) ∧
    (∀ (Res : Type) (env : Nat → Message → Option Res) (fuel : Nat)
        (st' : WState) (msg : Message) (b b' : Nat),
        (run_handler env fuel st' (.textChainDispatch b) msg).2 =
          (run_handler env fuel st' (.textChainDispatch b') msg).2) := by
  have hu : uniform "text" = "TEXT" := by decide
  refine ⟨rfl, ?_, ?_, ?_⟩
  · simp [text_filter_register, add_base_handler, hu, dict_get_set_self]
  · intro k hk
    simp [text_filter_register, add_base_handler, hu,
      dict_get_set_ne _ _ _ _ (fun hek => hk hek.symm)]
  · intro Res env fuel st' msg b b'
    cases fuel with
    | zero => rfl
    | succ f => rfl

/-- Claim C2 (amended, witness): a concrete first registration installs the
chain-dispatch closure under "TEXT" and leaves an unrelated key ("IMAGE")
unbound. -/
theorem C2_every_registration_installs_chain_dispatch_witness :
    dict_get (text_filter_register initial_state
        ⟨"x", fun _ => false⟩ (.user 3)).handlers "TEXT" =
      some (.fn (.textChainDispatch 1)) ∧
    dict_get (text_filter_register initial_state
        ⟨"x", fun _ => false⟩ (.user 3)).handlers "IMAGE" = none := by
  have h := C2_every_registration_installs_chain_dispatch initial_state
    ⟨"x", fun _ => false⟩ (.user 3)
  exact ⟨h.2.1, by rw [h.2.2.1 "IMAGE" (by decide)]; rfl⟩

/-- Claim C3: for a message whose canonical message type is "EVENT", whose
canonical event name is "CLICK" or "SCAN", and which carries a non-empty
event-key field, the Key Resolver returns exactly the two-element list
`["EVENT_" ++ eventName ++ "_" ++ eventKey, "EVENT_" ++ eventName]`, specific
key first, with event name and event key canonicalized (uppercased). -/
theorem C3_keyed_event_candidates (msg : Message) (t e k : String)
    (hT : msg.MsgType = some t) (hTe : uniform t = "EVENT")
    (hE : msg.Event = some e) (hEv : uniform e = "CLICK" ∨ uniform e = "SCAN")
    (hK : msg.EventKey = some k) (hKne : k ≠ "") :
    get_msg_handler_key msg =
      .ok ["EVENT_" ++ uniform e ++ "_" ++ uniform k, "EVENT_" ++ uniform e] := by
  have hu : uniform "EVENT" = "EVENT" := by decide
  have hne : ("EVENT" : String) ≠ "" := by decide
  have htr : truthy (some k) = true := by simp [truthy, hKne]
  rcases hEv with h | h <;>
    simp [get_msg_handler_key, uniform_attr, hT, hE, hK, hTe, hu, hne, htr, h,
      Bind.bind, Except.bind, pure, Except.pure]

/-- Claim C3 (witness): an EVENT/click message with event key "e1" yields the
candidate list `["EVENT_CLICK_E1", "EVENT_CLICK"]`. -/
theorem C3_keyed_event_candidates_witness :
    uniform "event" = "EVENT" ∧ ("e1" : String) ≠ "" ∧
    get_msg_handler_key ⟨some "event", some "click", some "e1", ""⟩ =
      .ok ["EVENT_CLICK_E1", "EVENT_CLICK"] := by
  refine ⟨by decide, by decide, ?_⟩
  have h := C3_keyed_event_candidates ⟨some "event", some "click", some "e1", ""⟩
    "event" "click" "e1" rfl (by decide) rfl (Or.inl (by decide)) rfl (by decide)
  rw [h]
  decide

/-- Claim C4: for an EVENT message whose canonical event name is neither
"CLICK" nor "SCAN", the Key Resolver returns exactly the one-element list
`["EVENT_" ++ eventName]`, regardless of whether the message carries an
event-key field or what value that field holds (the message, and hence its
`EventKey` field, is arbitrary here). -/
theorem C4_unkeyed_event_candidates (msg : Message) (t e : String)
    (hT : msg.MsgType = some t) (hTe : uniform t = "EVENT")
    (hE : msg.Event = some e)
    (hC : uniform e ≠ "CLICK") (hS : uniform e ≠ "SCAN") :
    get_msg_handler_key msg = .ok ["EVENT_" ++ uniform e] := by
  have hu : uniform "EVENT" = "EVENT" := by decide
  have hne : ("EVENT" : String) ≠ "" := by decide
  simp [get_msg_handler_key, uniform_attr, hT, hE, hTe, hu, hne, hC, hS,
    Bind.bind, Except.bind, pure, Except.pure]

/-- Claim C4 (witness): an EVENT/subscribe message — with an event-key field
present and non-empty — still yields exactly `["EVENT_SUBSCRIBE"]`. -/
theorem C4_unkeyed_event_candidates_witness :
    uniform "subscribe" ≠ "CLICK" ∧ uniform "subscribe" ≠ "SCAN" ∧
    get_msg_handler_key ⟨some "EVENT", some "subscribe", some "zzz", ""⟩ =
      .ok ["EVENT_SUBSCRIBE"] := by
  refine ⟨by decide, by decide, ?_⟩
  have h := C4_unkeyed_event_candidates ⟨some "EVENT", some "subscribe", some "zzz", ""⟩
    "EVENT" "subscribe" rfl (by decide) rfl (by decide) (by decide)
  rw [h]
  decide

/-- Claim C5: after `add_base_handler K H`, `get_base_handler` on any key
that equals `K` up to case (uppercasing is the single canonicalization,
applied identically at registration and lookup) returns `H`; and after a
subsequent `add_base_handler K H2`, lookup of `K` returns `H2` — last
registration wins. -/
theorem C5_register_resolve_overwrite (st : WState) (K K' : String)
    (h h2 : Handler) (hcase : uniform K' = uniform K) :
    get_base_handler (add_base_handler st K (.fn h)) [K'] = h ∧
    get_base_handler
        (add_base_handler (add_base_handler st K (.fn h)) K (.fn h2)) [K] = h2 := by
  constructor
  · simp [get_base_handler, add_base_handler, hcase, dict_get_set_self]
  · simp [get_base_handler, add_base_handler, dict_get_set_self]

/-- Claim C5 (witness): registering under "text" makes lookup of "TeXt"
return the handler, and re-registering under "text" overwrites it. -/
theorem C5_register_resolve_overwrite_witness :
    uniform "TeXt" = uniform "text" ∧
    get_base_handler (add_base_handler initial_state "text" (.fn (.user 0)))
        ["TeXt"] = .user 0 ∧
    get_base_handler (add_base_handler
        (add_base_handler initial_state "text" (.fn (.user 0)))
        "text" (.fn (.user 1))) ["text"] = .user 1 := by
  have h := C5_register_resolve_overwrite initial_state "text" "TeXt"
    (.user 0) (.user 1) (by decide)
  exact ⟨by decide, h.1, h.2⟩

/-- Claim C6: the chain-dispatch routine evaluates the compiled matchers in
exact insertion order — the handler of the first matching entry is selected
whatever entries follow it; if no entry matches, the chain's own default
handler (a state component settable independently of the Registry's global
default) is selected; and the routine returns exactly what the selected
handler returns (its trace and result are those of the selected handler's
invocation). -/
theorem C6_chain_dispatch_order :
    (∀ (st : WState) (content : String) (pre post : List (RePattern × Handler))
        (p : RePattern) (hdl : Handler),
        st.text_filter_handlers = pre ++ (p, hdl) :: post →
        (∀ e ∈ pre, e.1.pmatch content = false) →
        p.pmatch content = true →
        select_filter_handler st content = hdl) ∧
    (∀ (st : WState) (content : String),
        (∀ e ∈ st.text_filter_handlers, e.1.pmatch content = false) →
        select_filter_handler st content = st.text_filter_default) ∧
    (∀ (Res : Type) (env : Nat → Message → Option Res) (fuel : Nat)
        (st : WState) (msg : Message) (b : Nat),
        run_handler env (fuel + 1) st (.textChainDispatch b) msg =
          ((.textChainDispatch b, msg) ::
              (run_handler env fuel st (select_filter_handler st msg.Content) msg).1,
            (run_handler env fuel st (select_filter_handler st msg.Content) msg).2)) := by
  refine ⟨?_, ?_, ?_⟩
  · intro st content pre post p hdl hchain hpre hp
    have hnone : pre.find? (fun e => e.1.pmatch content) = none :=
      List.find?_eq_none.mpr fun e he => by simp [hpre e he]
    simp [select_filter_handler, hchain, List.find?_append, hnone, List.find?_cons, hp]
  · intro st content hall
    have hnone : st.text_filter_handlers.find? (fun e => e.1.pmatch content) = none :=
      List.find?_eq_none.mpr fun e he => by simp [hall e he]
    simp [select_filter_handler, hnone]
  · intro Res env fuel st msg b
    rfl

/-- Claim C6 (witness): with the chain `[(签到|report-matcher, H1),
(help-prefix matcher, H2)]` and chain default H9, content "签到" selects H1,
"helpme" selects H2, "xyz" selects H9, and the dispatch routine returns the
selected handler's result. -/
theorem C6_chain_dispatch_order_witness :
    select_filter_handler
        { handlers := []
          default := .defaultH
          text_filter_handlers :=
            [({ pattern := "^\\s*(签到|report)\\s*$",
                pmatch := fun c => c == "签到" || c == "report" }, .user 1),
             ({ pattern := "^help.*",
                pmatch := fun c => "help".data.isPrefixOf c.data }, .user 2)]
          text_filter_default := .user 9 } "签到" = .user 1 ∧
    select_filter_handler
        { handlers := []
          default := .defaultH
          text_filter_handlers :=
            [({ pattern := "^\\s*(签到|report)\\s*$",
                pmatch := fun c => c == "签到" || c == "report" }, .user 1),
             ({ pattern := "^help.*",
                pmatch := fun c => "help".data.isPrefixOf c.data }, .user 2)]
          text_filter_default := .user 9 } "xyz" = .user 9 ∧
    run_handler (fun i _ => some i) 1
        { handlers := []
          default := .defaultH
          text_filter_handlers :=
            [({ pattern := "^\\s*(签到|report)\\s*$",
                pmatch := fun c => c == "签到" || c == "report" }, .user 1),
             ({ pattern := "^help.*",
                pmatch := fun c => "help".data.isPrefixOf c.data }, .user 2)]
          text_filter_default := .user 9 }
        (.textChainDispatch 2) ⟨some "text", none, none, "helpme"⟩ =
      ([(.textChainDispatch 2, ⟨some "text", none, none, "helpme"⟩),
        (.user 2, ⟨some "text", none, none, "helpme"⟩)], some 2) := by
  refine ⟨?_, ?_, ?_⟩
  · exact C6_chain_dispatch_order.1 _ "签到" [] _ _ (.user 1) rfl
      (by intro e he; cases he) (by decide)
  · exact C6_chain_dispatch_order.2.1 _ "xyz" (by decide)
  · rw [C6_chain_dispatch_order.2.2 Nat (fun i _ => some i) 0 _
      ⟨some "text", none, none, "helpme"⟩ 2]
    decide

/-- Claim C7: filter-pattern compilation — a list of keyword strings compiles
to the anchored alternation `^\s*(kw1|kw2|...)\s*$`; a single string compiles
as a free-form pattern, its source unchanged (no implicit anchoring); an
already-compiled pattern is returned unchanged; and any other input type
raises an `Exception` at registration time. -/
theorem C7_compile_text_filter_rules :
    ∀ (engine : String → String → Bool) (kws : List String) (s : String)
      (p : RePattern),
      compile_text_filter engine (.list kws) =
        .ok { pattern := "^\\s*(" ++ String.intercalate "|" kws ++ ")\\s*$",
              pmatch := engine ("^\\s*(" ++ String.intercalate "|" kws ++ ")\\s*$") } ∧
      compile_text_filter engine (.str s) = .ok { pattern := s, pmatch := engine s } ∧
      compile_text_filter engine (.compiled p) = .ok p ∧
      compile_text_filter engine .other =
        .error (.exception "filter is not list, str or re_pattern.") :=
  fun _ _ _ _ => ⟨rfl, rfl, rfl, rfl⟩

/-- Claim C8: on every dispatch that reaches handler invocation (the key list
resolved without raising — it is in fact always non-empty), the handler
resolved from key `"_on_finish_"` is invoked exactly once, with the same
request, strictly after the primary handler's invocation completes: the
dispatch trace is the primary handler's trace followed by the single
finish-hook event, and the dispatch result is exactly the primary handler's
result — the finish hook's return value never affects it. When no finish
hook was ever registered, the `"_on_finish_"` key resolves to the global
no-op default handler. -/
theorem C8_finish_hook_after_primary :
    (∀ (Res : Type) (env : Nat → Message → Option Res) (fuel : Nat)
        (st : WState) (msg : Message) (keys : List String) (fh : Handler),
        get_msg_handler_key msg = .ok keys → keys ≠ [] →
        get_base_handler st ["_on_finish_"] = fh →
        (∀ b, fh ≠ .textChainDispatch b) →
        reply env fuel st msg =
          .ok ((run_handler env fuel st (get_base_handler st keys) msg).1
                ++ [(fh, msg)],
               (run_handler env fuel st (get_base_handler st keys) msg).2)) ∧
    (∀ st : WState, dict_get st.handlers "_ON_FINISH_" = none →
        get_base_handler st ["_on_finish_"] = st.default) := by
  constructor
  · intro Res env fuel st msg keys fh hkeys hne hfh hnc
    have htr := run_handler_not_chain env fuel st fh msg hnc
    simp [reply, hkeys, hne, hfh, htr, Bind.bind, Except.bind, pure, Except.pure]
  · intro st hnone
    have hu : uniform "_on_finish_" = "_ON_FINISH_" := by decide
    simp [get_base_handler, hu, hnone]

/-- Claim C8 (witness): with a text handler and a finish hook registered, a
text message's dispatch trace is the primary invocation followed by exactly
one finish-hook invocation of the same message, and the result is the primary
handler's return value (here `some 4`), not the finish hook's (`some 5`). -/
theorem C8_finish_hook_after_primary_witness :
    get_msg_handler_key ⟨some "text", none, none, "hi"⟩ = .ok ["TEXT"] ∧
    (["TEXT"] : List String) ≠ [] ∧
    get_base_handler
        (on_finish (add_base_handler initial_state "text" (.fn (.user 4)))
          (.user 5)) ["_on_finish_"] = .user 5 ∧
    reply (fun i _ => some i) 1
        (on_finish (add_base_handler initial_state "text" (.fn (.user 4)))
          (.user 5)) ⟨some "text", none, none, "hi"⟩ =
      .ok ([(.user 4, ⟨some "text", none, none, "hi"⟩),
            (.user 5, ⟨some "text", none, none, "hi"⟩)], some 4) := by
  refine ⟨by decide, by decide, by decide, ?_⟩
  rw [C8_finish_hook_after_primary.1 Nat (fun i _ => some i) 1
    (on_finish (add_base_handler initial_state "text" (.fn (.user 4))) (.user 5))
    ⟨some "text", none, none, "hi"⟩ ["TEXT"] (.user 5)
    (by decide) (by decide) (by decide) (fun b => by simp)]
  decide

/-- Claim C9: `get_base_handler` is a total function — it never raises — and
for every (possibly empty) candidate-key list in which no candidate key has a
registration, it returns the state's global default handler; the configured
default (the `lambda req: None` installed at construction) produces an absent
result when invoked. -/
theorem C9_resolve_falls_through_to_default :
    (∀ (st : WState) (keys : List String),
        (∀ k ∈ keys, dict_get st.handlers (uniform k) = none) →
        get_base_handler st keys = st.default) ∧
    (∀ (Res : Type) (env : Nat → Message → Option Res) (fuel : Nat)
        (st : WState) (msg : Message), st.default = .defaultH →
        (run_handler env fuel st st.default msg).2 = none) := by
  constructor
  · intro st keys h
    exact get_base_handler_eq_default st keys fun k hk => by
      rw [h k hk]; rfl
  · intro Res env fuel st msg hdef
    rw [hdef]
    cases fuel <;> rfl

/-- Claim C9 (witness): in the freshly constructed state, resolving the
candidate list `["text", "foo"]` (and the empty list) returns the global
default handler, which returns an absent result. -/
theorem C9_resolve_falls_through_to_default_witness :
    get_base_handler initial_state ["text", "foo"] = initial_state.default ∧
    get_base_handler initial_state [] = initial_state.default ∧
    (run_handler (fun i _ => some i) 1 initial_state initial_state.default
      ⟨some "text", none, none, ""⟩).2 = none := by
  refine ⟨?_, ?_, ?_⟩
  · exact C9_resolve_falls_through_to_default.1 initial_state ["text", "foo"]
      (by decide)
  · exact C9_resolve_falls_through_to_default.1 initial_state [] (by decide)
  · exact C9_resolve_falls_through_to_default.2 Nat (fun i _ => some i) 1
      initial_state ⟨some "text", none, none, ""⟩ rfl

/-- Claim C10: during resolution, a candidate key bound to a non-callable
value is treated as unregistered — `get_base_handler` skips it and continues
with the remaining candidate keys — and when every candidate key is bound to
no callable value (unbound or bound to a non-callable), resolution falls
through to the global default handler. -/
theorem C10_non_callable_skipped :
    (∀ (st : WState) (k : String) (rest : List String) (v : RegVal),
        dict_get st.handlers (uniform k) = some v → callable (some v) = false →
        get_base_handler st (k :: rest) = get_base_handler st rest) ∧
    (∀ (st : WState) (keys : List String),
        (∀ k ∈ keys, callable (dict_get st.handlers (uniform k)) = false) →
        get_base_handler st keys = st.default) := by
  constructor
  · intro st k rest v hv hnc
    cases v with
    | fn h => simp [callable] at hnc
    | obj t => simp [get_base_handler, hv]
  · exact get_base_handler_eq_default

/-- Claim C10 (witness): with the "TEXT" key bound to a non-callable value
(`obj 7`), resolving `["text", "image"]` skips it and falls through to the
global default handler. -/
theorem C10_non_callable_skipped_witness :
    dict_get (add_base_handler initial_state "text" (.obj 7)).handlers
        (uniform "text") = some (.obj 7) ∧
    get_base_handler (add_base_handler initial_state "text" (.obj 7))
        ["text", "image"] =
      get_base_handler (add_base_handler initial_state "text" (.obj 7))
        ["image"] ∧
    get_base_handler (add_base_handler initial_state "text" (.obj 7))
        ["text", "image"] =
      (add_base_handler initial_state "text" (.obj 7)).default := by
  refine ⟨by decide, ?_, ?_⟩
  · exact C10_non_callable_skipped.1 (add_base_handler initial_state "text" (.obj 7))
      "text" ["image"] (.obj 7) (by decide) (by decide)
  · exact C10_non_callable_skipped.2 (add_base_handler initial_state "text" (.obj 7))
      ["text", "image"] (by decide)

end WeixinSDK
